import Mathlib

/-!
Verification development for the nx-backend availability and booking
orchestration core.

Shallow embedding conventions:
* An instant is a `Nat`: minutes since the civil epoch 0000-03-01 of the
  proleptic Gregorian calendar.  A calendar date is its day number
  (`instant / 1440`); a time of day is minutes after midnight
  (`instant % 1440`).  The Python code formats times of day as
  zero-padded `"HH:MM"` strings and compares them lexicographically,
  which agrees with the numeric order on minutes, so times of day are
  embedded as minute counts.  Calendar dates are formatted `"YYYY-MM-DD"`
  and compared for equality, which agrees with equality of day numbers.
* Config constants of `booking_config.py` are gathered in a
  `BookingConfig` structure so that statements can vary individual
  fields; `defaultConfig` holds exactly the literals of the source.
* Network calls to the calendar provider are parameters of `Except`
  type: `.ok` is a normal return, `.error` is a raised exception.
-/

namespace NxBackend

/-- Day count of a proleptic-Gregorian civil date, measured from the epoch
0000-03-01 (Howard Hinnant's `days_from_civil` algorithm, restricted to
years at least 1, where all intermediate quantities are nonnegative). -/
def daysFromCivil (y m d : Nat) : Nat :=
  let y2 := if m ≤ 2 then y - 1 else y
  let era := y2 / 400
  let yoe := y2 - era * 400
  let mp := if 2 < m then m - 3 else m + 9
  let doy := (153 * mp + 2) / 5 + d - 1
  let doe := yoe * 365 + yoe / 4 - yoe / 100 + doy
  era * 146097 + doe

/-- Day of week of a civil day number, 0 = Monday .. 6 = Sunday.
Day 0 (0000-03-01) is a Wednesday, hence the offset 2.  This embeds
Python's `date.strftime("%A").lower()`, with the seven lowercase day
names replaced by the indices 0..6. -/
def weekday (day : Nat) : Nat := (day + 2) % 7

/-- Calendar date (day number) of an instant. -/
def dayOf (t : Nat) : Nat := t / 1440

/-- Time of day (minutes after midnight) of an instant. -/
def minuteOfDay (t : Nat) : Nat := t % 1440

/-- Zero-padded two-digit decimal rendering of a number below 100. -/
def pad2 (n : Nat) : String :=
  if n < 10 then "0" ++ toString n else toString n

/-- Rendering of a time of day as an `"HH:MM"` string, embedding
Python's `strftime("%H:%M")`. -/
def minutesToHHMM (m : Nat) : String :=
  pad2 (m / 60) ++ ":" ++ pad2 (m % 60)

/-- The configuration constants of `booking_config.py`.  Working hours
map a weekday index (0 = Monday) to an optional open interval of
minutes; `none` means closed, embedding the `None` entries of the
`WORK_HOURS` dict.  Blackout dates are day numbers. -/
structure BookingConfig where
  work_hours : Nat → Option (Nat × Nat)
  slot_duration_minutes : Nat
  buffer_between_meetings : Nat
  min_advance_hours : Nat
  max_advance_days : Nat
  max_bookings_per_day : Nat
  blackout_dates : List Nat
  lunch_break : Option (Nat × Nat)

/-- The `WORK_HOURS` dict: Monday..Friday 09:00-17:00 (540-1020 minutes),
Saturday and Sunday closed. -/
def WORK_HOURS : Nat → Option (Nat × Nat)
  | 0 => some (540, 1020)
  | 1 => some (540, 1020)
  | 2 => some (540, 1020)
  | 3 => some (540, 1020)
  | 4 => some (540, 1020)
  | _ => none

/-- The `BLACKOUT_DATES` list of `booking_config.py`, as day numbers. -/
def BLACKOUT_DATES : List Nat :=
  [daysFromCivil 2026 1 1, daysFromCivil 2026 5 1,
   daysFromCivil 2026 12 25, daysFromCivil 2026 12 26]

/-- The module-level constants of `booking_config.py` in one record. -/
def defaultConfig : BookingConfig where
  work_hours := WORK_HOURS
  slot_duration_minutes := 30
  buffer_between_meetings := 0
  min_advance_hours := 24
  max_advance_days := 30
  max_bookings_per_day := 8
  blackout_dates := BLACKOUT_DATES
  lunch_break := some (720, 780)

/-- `booking_config.is_working_day`: the weekday has a `WORK_HOURS` entry. -/
def is_working_day (cfg : BookingConfig) (day : Nat) : Bool :=
  (cfg.work_hours (weekday day)).isSome

/-- `booking_config.get_work_hours_for_day`. -/
def get_work_hours_for_day (cfg : BookingConfig) (day : Nat) : Option (Nat × Nat) :=
  cfg.work_hours (weekday day)

/-- `booking_config.is_blackout_date`: membership of the formatted date in
`BLACKOUT_DATES`, embedded as day-number membership. -/
def is_blackout_date (cfg : BookingConfig) (day : Nat) : Bool :=
  cfg.blackout_dates.contains day

/-- `booking_config.is_lunch_time`: falls inside the half-open lunch
window when one is configured. -/
def is_lunch_time (cfg : BookingConfig) (t : Nat) : Bool :=
  match cfg.lunch_break with
  | none => false
  | some lb => decide (lb.1 ≤ t) && decide (t < lb.2)

/-- The `while current_time < end_time` loop of `get_time_slots_for_day`:
emit the current start unless it is lunch, then step by the slot
duration.  `fuel` bounds the number of iterations; the caller passes a
bound that is never reached while the configured slot duration is
positive (the source loop would not terminate on a zero duration). -/
def slotsLoop (cfg : BookingConfig) (current endT fuel : Nat) : List Nat :=
  match fuel with
  | 0 => []
  | fuel' + 1 =>
    if current < endT then
      (if is_lunch_time cfg current then [] else [current]) ++
        slotsLoop cfg (current + cfg.slot_duration_minutes) endT fuel'
    else []

/-- `booking_config.get_time_slots_for_day`: empty on non-working or
blackout days, otherwise the slot starts stepping through the open
interval, skipping lunch. -/
def get_time_slots_for_day (cfg : BookingConfig) (day : Nat) : List Nat :=
  if !is_working_day cfg day || is_blackout_date cfg day then []
  else
    match get_work_hours_for_day cfg day with
    | none => []
    | some wh => slotsLoop cfg wh.1 wh.2 wh.2

/-- `booking_config.is_valid_booking_time`, with the clock read
`datetime.now()` passed explicitly as `now`.  Returns the
`(is_valid, error_message)` pair of the source, each rejection message
rendered as in the Python f-strings. -/
def is_valid_booking_time (cfg : BookingConfig) (booking_datetime now : Nat) :
    Bool × String :=
  let min_advance := now + cfg.min_advance_hours * 60
  if booking_datetime < min_advance then
    (false, "Bookings must be made at least " ++ toString cfg.min_advance_hours
      ++ " hours in advance")
  else
    let max_advance := now + cfg.max_advance_days * 1440
    if max_advance < booking_datetime then
      (false, "Bookings cannot be made more than " ++ toString cfg.max_advance_days
        ++ " days in advance")
    else if !is_working_day cfg (dayOf booking_datetime) then
      (false, "Selected day is not available for bookings")
    else if is_blackout_date cfg (dayOf booking_datetime) then
      (false, "Selected date is not available")
    else
      match get_work_hours_for_day cfg (dayOf booking_datetime) with
      | none => (false, "No working hours defined for this day")
      | some wh =>
        let time_min := minuteOfDay booking_datetime
        if !(decide (wh.1 ≤ time_min) && decide (time_min < wh.2)) then
          (false, "Selected time is outside working hours (" ++ minutesToHHMM wh.1
            ++ " - " ++ minutesToHHMM wh.2 ++ ")")
        else if is_lunch_time cfg time_min then
          (false, "Selected time falls during lunch break")
        else (true, "")

/-- An OAuth credential object (`google.oauth2.credentials.Credentials`):
an opaque access token, an optional refresh token, and an optional
expiry instant. -/
structure Creds where
  token : String
  refresh_token : Option String
  expiry : Option Nat
deriving DecidableEq

/-- Whether a credential counts as expired at instant `now`
(`Credentials.expired` is false when no expiry is recorded). -/
def creds_expired (c : Creds) (now : Nat) : Bool :=
  match c.expiry with
  | none => false
  | some e => decide (e ≤ now)

/-- The mutable fields of a `GoogleOAuthService` instance: `self.creds`
and whether `self.service` has been built. -/
structure OAuthState where
  creds : Option Creds
  service : Bool
deriving DecidableEq

/-- A calendar event returned by the provider's list call, opaque. -/
abbrev CalEvent := String

/-- An event created by the provider's insert call: its id, browsable
link, and the `conferenceData.entryPoints` list as
(entryPointType, uri) pairs (`none` when the response carries no
`conferenceData` key). -/
structure CreatedEvent where
  id : String
  htmlLink : Option String
  entryPoints : Option (List (String × String))
deriving DecidableEq

/-- An event payload handed to the provider's insert call, covering the
fields both creation paths build.  `extendedProperties_private` is the
operator-only private-notes field; `hasConferenceRequest` records a
`conferenceData.createRequest`; `sendUpdates` is the attendee
notification mode. -/
structure GEvent where
  summary : String
  description : String
  extendedProperties_private : Option String
  startMinutes : Nat
  endMinutes : Nat
  timeZone : String
  attendees : List String
  hasConferenceRequest : Bool
  sendUpdates : Option String
deriving DecidableEq

/-- The behavior of the external calendar provider during one request:
what each outbound call would return, `.error` meaning the call raises. -/
structure Provider where
  listEvents : Nat → Nat → String → Except String (List CalEvent)
  insertEvent : GEvent → Except String CreatedEvent

/-- A provider call made during `create_meeting`, recorded so that
statements can say which provider operations were invoked. -/
inductive PCall
  | listEvents
  | insertEvent
deriving DecidableEq

/-- A successfully parsed booking form (`BookingRequest` of `main.py`),
with `meetingDate`/`meetingTime` already parsed into a day number and
minutes after midnight. -/
structure FormData where
  companyName : String
  companySize : String
  industry : String
  website : String
  fullName : String
  email : String
  phone : String
  role : String
  meetingDay : Nat
  meetingMinute : Nat
  timezone : String
  goals : String
  howDidYouHear : String
deriving DecidableEq

/-- The requested start instant of a booking form. -/
def FormData.startInstant (fd : FormData) : Nat :=
  fd.meetingDay * 1440 + fd.meetingMinute

/-- The result dict a `create_meeting` method returns: `success` plus the
optional keys the dict may carry (`dict.get` on an absent key is `none`). -/
structure MeetingResult where
  success : Bool
  error : Option String
  message : String
  event_id : Option String
  event_link : Option String
  meet_link : Option String
  attendee_email : Option String
deriving DecidableEq

namespace GoogleOAuthService

/-- `GoogleOAuthService._load_credentials`, with the token file contents
as `store` and the provider refresh call as `refresh`.  Returns the
resulting state together with the persisted token file contents, or
`.error` when the refresh call raises (the source has no handler around
`self.creds.refresh(Request())`, so the exception escapes to the
constructor).  When the loaded credential is expired without a refresh
token, the service is still built on the stale credential. -/
def load_credentials (store : Option Creds) (now : Nat)
    (refresh : Creds → Except String Creds) :
    Except String (OAuthState × Option Creds) :=
  match store with
  | none => .ok ({ creds := none, service := false }, none)
  | some c =>
    if creds_expired c now && c.refresh_token.isSome then
      match refresh c with
      | .error e => .error e
      | .ok c' => .ok ({ creds := some c', service := true }, some c')
    else .ok ({ creds := some c, service := true }, some c)

/-- `GoogleOAuthService.authorize_from_code`: exchange the one-time code
(the exchange outcome is `exchange`), store the new credential, persist
it, and build the service; a raising exchange escapes to the caller. -/
def authorize_from_code (exchange : Except String Creds) :
    Except String (OAuthState × Option Creds) :=
  match exchange with
  | .error e => .error e
  | .ok c => .ok ({ creds := some c, service := true }, some c)

/-- `GoogleOAuthService.is_authorized`: credential and service handle are
both present.  No expiry check and no refresh happen here. -/
def is_authorized (st : OAuthState) : Bool :=
  st.creds.isSome && st.service

/-- `GoogleOAuthService.check_conflicts`: list the provider's events
overlapping the interval and report a conflict when any exist; every
exception inside the try block (timezone localization, missing service,
network failure) is caught and turned into `false`, so the function is
total and never propagates an error. -/
def check_conflicts (p : Provider) (start_time end_time : Nat)
    (timezone_str : String) : Bool :=
  match p.listEvents start_time end_time timezone_str with
  | .ok events => decide (0 < events.length)
  | .error _ => false

/-- The client-visible description built by the authorized path. -/
def client_description : String :=
  "Looking forward to our strategy call!\n\nJoin via Google Meet (link in calendar event)."

/-- The operator-only private notes of the authorized path, holding the
full intake details. -/
def private_notes (fd : FormData) : String :=
  "CLIENT DETAILS\n" ++
  "Company: " ++ fd.companyName ++ "\n" ++
  "Contact: " ++ fd.fullName ++ "\n" ++
  "Email: " ++ fd.email ++ "\n" ++
  "Phone: " ++ fd.phone ++ "\n" ++
  "Role: " ++ fd.role ++ "\n" ++
  "Industry: " ++ fd.industry ++ "\n" ++
  "Website: " ++ fd.website ++ "\n\n" ++
  "GOALS\n" ++ fd.goals ++ "\n\n" ++
  "Source: " ++ fd.howDidYouHear

/-- The event payload the authorized path inserts: minimal visible
description, intake details in the private-notes field, the requester as
attendee, an auto-provisioned conference request, and attendee
notification. -/
def build_event (fd : FormData) : GEvent where
  summary := "Strategy Call - " ++ fd.companyName
  description := client_description
  extendedProperties_private := some (private_notes fd)
  startMinutes := fd.startInstant
  endMinutes := fd.startInstant + 30
  timeZone := fd.timezone
  attendees := [fd.email]
  hasConferenceRequest := true
  sendUpdates := some "all"

/-- The Meet-link extraction from a created event: the uri of the first
`entryPoints` entry whose type is `"video"`, absent when the response
has no `conferenceData`. -/
def extract_meet_link (ce : CreatedEvent) : Option String :=
  match ce.entryPoints with
  | none => none
  | some eps => (eps.find? (fun e => e.1 == "video")).map (fun e => e.2)

/-- `GoogleOAuthService.create_meeting`.  The second component records
the provider calls made, in order.  When not authorized, fail without
touching the provider; otherwise check conflicts (one list call) and
either fail with the slot-taken message or insert the built event, a
raising insert being caught into a failure result. -/
def create_meeting (st : OAuthState) (p : Provider) (fd : FormData) :
    MeetingResult × List PCall :=
  if !is_authorized st then
    ({ success := false, error := some "Not authorized",
       message := "Please complete OAuth2 setup first",
       event_id := none, event_link := none, meet_link := none,
       attendee_email := none }, [])
  else
    let meeting_datetime := fd.startInstant
    let end_datetime := meeting_datetime + 30
    if check_conflicts p meeting_datetime end_datetime fd.timezone then
      ({ success := false, error := some "Time slot not available",
         message := "This time slot is already booked. Please choose another time.",
         event_id := none, event_link := none, meet_link := none,
         attendee_email := none }, [.listEvents])
    else
      match p.insertEvent (build_event fd) with
      | .ok created_event =>
        ({ success := true, error := none,
           message := "Meeting scheduled with Google Meet! Invite sent to " ++ fd.email,
           event_id := some created_event.id,
           event_link := created_event.htmlLink,
           meet_link := extract_meet_link created_event,
           attendee_email := some fd.email }, [.listEvents, .insertEvent])
      | .error e =>
        ({ success := false, error := some e,
           message := "Failed to create meeting",
           event_id := none, event_link := none, meet_link := none,
           attendee_email := none }, [.listEvents, .insertEvent])

end GoogleOAuthService

namespace GoogleCalendarService

/-- The event payload the service-account path inserts: the visible
description inlines email, phone, role and goals; no attendees, no
conference request, no private-notes field, no notification mode. -/
def build_event (fd : FormData) : GEvent where
  summary := "Strategy Call - " ++ fd.companyName
  description := fd.email ++ "\n" ++ fd.phone ++ "\n" ++ fd.role ++ "\n\n" ++ fd.goals
  extendedProperties_private := none
  startMinutes := fd.startInstant
  endMinutes := fd.startInstant + 30
  timeZone := fd.timezone
  attendees := []
  hasConferenceRequest := false
  sendUpdates := none

/-- `GoogleCalendarService.create_meeting`, with `configured` standing
for `self.service is not None`.  No conflict check happens on this path;
the result dict never carries a `meet_link` key, so that field is
`none`.  A raising insert is caught into a failure result. -/
def create_meeting (configured : Bool) (p : Provider) (fd : FormData) :
    MeetingResult × List PCall :=
  if !configured then
    ({ success := false, error := some "Service account not configured",
       message := "", event_id := none, event_link := none,
       meet_link := none, attendee_email := none }, [])
  else
    match p.insertEvent (build_event fd) with
    | .ok created_event =>
      ({ success := true, error := none,
         message := "Event created! Manually add Google Meet and invite " ++ fd.email,
         event_id := some created_event.id,
         event_link := created_event.htmlLink,
         meet_link := none,
         attendee_email := some fd.email }, [.insertEvent])
    | .error e =>
      ({ success := false, error := some e, message := "",
         event_id := none, event_link := none, meet_link := none,
         attendee_email := none }, [.insertEvent])

end GoogleCalendarService

/-- An HTTP error raised by an endpoint: status code and detail string. -/
abbrev HTTPError := Nat × String

/-- The JSON body of a successful availability response. -/
structure AvailResponse where
  available_slots : List (Nat × List Nat)
  slot_duration_minutes : Nat
  timezone : String
deriving DecidableEq

/-- The JSON body of a successful booking response. -/
structure BookResponse where
  message : String
  event_id : Option String
  event_link : Option String
  meet_link : Option String
  attendee_email : Option String
deriving DecidableEq

/-- The inner loop body of `get_available_slots` for one day: the
policy slots of the day, keeping those that are not in the past and
whose half-open 30-minute interval the conflict check reports free. -/
def free_slots_for_day (p : Provider) (now day : Nat) : List Nat :=
  (get_time_slots_for_day defaultConfig day).filter (fun t =>
    let slot_datetime := day * 1440 + t
    !decide (slot_datetime < now) &&
      !GoogleOAuthService.check_conflicts p slot_datetime
        (slot_datetime + 30) "Europe/Luxembourg")

/-- `GET /api/available-slots` (`main.get_available_slots`).  The gate
rejects with 503 whenever the OAuth service is not authorized - the
service-account configuration flag `calConfigured` is in scope (the
module imports `calendar_service`) but is never consulted.  `start_day`
is the parsed `start_date` query parameter (`none` means start from the
day after `now + MIN_ADVANCE_HOURS`); `days` is clamped to
`MAX_ADVANCE_DAYS`; days with no free slot are omitted from the map. -/
def get_available_slots (oauthSt : OAuthState) (calConfigured : Bool)
    (p : Provider) (now : Nat) (start_day : Option Nat) (days : Nat) :
    Except HTTPError AvailResponse :=
  if !GoogleOAuthService.is_authorized oauthSt then
    .error (503, "Calendar not configured")
  else
    let start := match start_day with
      | some d => d
      | none => dayOf (now + defaultConfig.min_advance_hours * 60)
    let days' := min days defaultConfig.max_advance_days
    let slots := (List.range days').filterMap (fun day_offset =>
      let check_date := start + day_offset
      let free := free_slots_for_day p now check_date
      if free.isEmpty then none else some (check_date, free))
    .ok { available_slots := slots, slot_duration_minutes := 30,
          timezone := "Europe/Luxembourg" }

/-- The tail of `main.book_meeting` shared by both creation paths: a
failed result dict becomes a 500 with its error detail, a successful one
becomes the response body. -/
def finish_booking (result : MeetingResult) : Except HTTPError BookResponse :=
  if !result.success then
    .error (500, result.error.getD "Failed to create meeting")
  else
    .ok { message := result.message, event_id := result.event_id,
          event_link := result.event_link, meet_link := result.meet_link,
          attendee_email := result.attendee_email }

/-- `POST /api/book-meeting` (`main.book_meeting`): validate the
requested instant against the booking rules (400 on rejection, with the
rejection message as detail), then prefer the OAuth path, fall back to
the service account, or fail 503 when neither is usable. -/
def book_meeting (oauthSt : OAuthState) (calConfigured : Bool)
    (p : Provider) (now : Nat) (fd : FormData) :
    Except HTTPError BookResponse :=
  let v := is_valid_booking_time defaultConfig fd.startInstant now
  if !v.1 then .error (400, v.2)
  else if GoogleOAuthService.is_authorized oauthSt then
    finish_booking (GoogleOAuthService.create_meeting oauthSt p fd).1
  else if calConfigured then
    finish_booking (GoogleCalendarService.create_meeting calConfigured p fd).1
  else
    .error (503, "Google Calendar not configured. Set up OAuth2 or Service Account.")

/-- Modelled from the spec: the behavior the spec prescribes for
`isAuthorized()` - true iff the authorization state is `Authorized`,
after an implicit on-demand refresh attempt when the state is `Expired`
(a held token whose expiry has passed): an unexpired held token is
`Authorized`; an expired one with a refresh token is healed exactly when
the refresh call succeeds; otherwise not authorized.  This is the
reference the code's `is_authorized` is compared against. -/
def spec_is_authorized (st : OAuthState) (now : Nat)
    (refresh : Creds → Except String Creds) : Bool :=
  match st.creds with
  | none => false
  | some c =>
    if creds_expired c now then
      match c.refresh_token with
      | none => false
      | some _ =>
        match refresh c with
        | .ok _ => true
        | .error _ => false
    else true

/-! Concrete states, providers and forms used to instantiate theorems. -/

/-- A credential with a refresh token, expiring at instant 1000. -/
def sampleCreds : Creds where
  token := "tok"
  refresh_token := some "rtok"
  expiry := some 1000

/-- A service state holding a credential and a built service handle. -/
def authedState : OAuthState where
  creds := some sampleCreds
  service := true

/-- A provider on which every outbound call raises. -/
def failProvider : Provider where
  listEvents := fun _ _ _ => .error "network unreachable"
  insertEvent := fun _ => .error "network unreachable"

/-- A provider whose list call reports one overlapping event and whose
insert call raises. -/
def busyProvider : Provider where
  listEvents := fun _ _ _ => .ok ["existing event"]
  insertEvent := fun _ => .error "insert should not be reached"

/-- A created event carrying a video entry point. -/
def sampleCreated : CreatedEvent where
  id := "evt1"
  htmlLink := some "link1"
  entryPoints := some [("video", "meetlink1")]

/-- A provider with an empty calendar on which inserts succeed. -/
def okProvider : Provider where
  listEvents := fun _ _ _ => .ok []
  insertEvent := fun _ => .ok sampleCreated

/-- A concrete booking form for Monday 2026-03-02 at 10:00. -/
def sampleForm : FormData where
  companyName := "Acme"
  companySize := "10"
  industry := "Retail"
  website := "acme.example"
  fullName := "Ada Lovelace"
  email := "ada@example.com"
  phone := "123456"
  role := "CEO"
  meetingDay := daysFromCivil 2026 3 2
  meetingMinute := 600
  timezone := "Europe/Luxembourg"
  goals := "Automate reporting"
  howDidYouHear := "search"

/-- C4: the conflict check is fail-open - for every interval and
timezone, if the provider query inside `check_conflicts` errors, the
function returns `false` (no conflict); being a total function into
`Bool`, it never propagates the error to its caller. -/
theorem C4_check_conflicts_fail_open (p : Provider) (s e : Nat)
    (tz err : String) (h : p.listEvents s e tz = .error err) :
    GoogleOAuthService.check_conflicts p s e tz = false := by
  simp [GoogleOAuthService.check_conflicts, h]

/-- Witness for C4 at a concrete raising provider. -/
theorem C4_witness :
    GoogleOAuthService.check_conflicts failProvider 0 30 "Europe/Luxembourg" = false :=
  C4_check_conflicts_fail_open failProvider 0 30 "Europe/Luxembourg"
    "network unreachable" rfl

/-- C5: meeting creation is fail-closed - on either creation path, if
the provider's insert call errors, the returned result has
`success = false` (a creation error), never a success confirmation. -/
theorem C5_create_meeting_fail_closed (st : OAuthState) (p : Provider)
    (fd : FormData) (e1 e2 : String) :
    (p.insertEvent (GoogleOAuthService.build_event fd) = .error e1 →
      ((GoogleOAuthService.create_meeting st p fd).1).success = false) ∧
    (p.insertEvent (GoogleCalendarService.build_event fd) = .error e2 →
      ∀ configured : Bool,
        ((GoogleCalendarService.create_meeting configured p fd).1).success = false) := by
  constructor
  · intro h
    simp only [GoogleOAuthService.create_meeting, h]
    split
    · rfl
    · split <;> rfl
  · intro h configured
    simp only [GoogleCalendarService.create_meeting, h]
    split <;> rfl

/-- Witness for C5 at a concrete raising provider, on both paths. -/
theorem C5_witness :
    ((GoogleOAuthService.create_meeting authedState failProvider sampleForm).1).success
      = false ∧
    ((GoogleCalendarService.create_meeting true failProvider sampleForm).1).success
      = false :=
  ⟨(C5_create_meeting_fail_closed authedState failProvider sampleForm
      "network unreachable" "network unreachable").1 rfl,
   (C5_create_meeting_fail_closed authedState failProvider sampleForm
      "network unreachable" "network unreachable").2 rfl true⟩

/-- C6: on the authorized path, when the conflict check reports the
requested interval as conflicting, `create_meeting` returns the
slot-taken failure result and the provider's insert operation is never
invoked (the call trace is the single list call). -/
theorem C6_slot_taken_no_insert (st : OAuthState) (p : Provider) (fd : FormData)
    (hauth : GoogleOAuthService.is_authorized st = true)
    (hconf : GoogleOAuthService.check_conflicts p fd.startInstant
      (fd.startInstant + 30) fd.timezone = true) :
    GoogleOAuthService.create_meeting st p fd =
      ({ success := false, error := some "Time slot not available",
         message := "This time slot is already booked. Please choose another time.",
         event_id := none, event_link := none, meet_link := none,
         attendee_email := none }, [PCall.listEvents]) ∧
    PCall.insertEvent ∉ (GoogleOAuthService.create_meeting st p fd).2 := by
  have h : GoogleOAuthService.create_meeting st p fd =
      ({ success := false, error := some "Time slot not available",
         message := "This time slot is already booked. Please choose another time.",
         event_id := none, event_link := none, meet_link := none,
         attendee_email := none }, [PCall.listEvents]) := by
    unfold GoogleOAuthService.create_meeting
    simp [hauth, hconf]
  refine ⟨h, ?_⟩
  rw [h]
  simp

/-- Witness for C6 at a concrete authorized state and busy calendar. -/
theorem C6_witness :
    PCall.insertEvent ∉
      (GoogleOAuthService.create_meeting authedState busyProvider sampleForm).2 :=
  (C6_slot_taken_no_insert authedState busyProvider sampleForm rfl rfl).2

/-- Every start time emitted by the slot loop lies in
`[current, endT)` and is not inside the lunch window, for any fuel. -/
theorem slotsLoop_mem (cfg : BookingConfig) :
    ∀ fuel current endT s, s ∈ slotsLoop cfg current endT fuel →
      current ≤ s ∧ s < endT ∧ is_lunch_time cfg s = false := by
  intro fuel
  induction fuel with
  | zero =>
    intro current endT s h
    simp [slotsLoop] at h
  | succ f ih =>
    intro current endT s h
    simp only [slotsLoop] at h
    by_cases hlt : current < endT
    · rw [if_pos hlt] at h
      rcases List.mem_append.mp h with h1 | h2
      · cases hl : is_lunch_time cfg current with
        | true => rw [if_pos (by simp [hl])] at h1; cases h1
        | false =>
          rw [if_neg (by simp [hl])] at h1
          rcases List.mem_singleton.mp h1 with rfl
          exact ⟨Nat.le_refl _, hlt, hl⟩
      · rcases ih _ _ _ h2 with ⟨hle, hlt2, hlunch⟩
        exact ⟨by omega, hlt2, hlunch⟩
    · rw [if_neg hlt] at h
      cases h

/-- C7: slot generation is empty on non-working and blackout days, and
every emitted slot lies inside the day's working-hours window and
outside the lunch window. -/
theorem C7_generate_slots_sound (cfg : BookingConfig) (day : Nat) :
    ((is_working_day cfg day = false ∨ is_blackout_date cfg day = true) →
      get_time_slots_for_day cfg day = []) ∧
    (∀ s ∈ get_time_slots_for_day cfg day,
      ∃ wh, get_work_hours_for_day cfg day = some wh ∧
        wh.1 ≤ s ∧ s < wh.2 ∧ is_lunch_time cfg s = false) := by
  constructor
  · rintro (h | h) <;> simp [get_time_slots_for_day, h]
  · intro s hs
    unfold get_time_slots_for_day at hs
    by_cases hg : (!is_working_day cfg day || is_blackout_date cfg day) = true
    · rw [if_pos hg] at hs; cases hs
    · rw [if_neg hg] at hs
      cases hwh : get_work_hours_for_day cfg day with
      | none => rw [hwh] at hs; cases hs
      | some wh =>
        rw [hwh] at hs
        rcases slotsLoop_mem cfg _ _ _ _ hs with ⟨h1, h2, h3⟩
        exact ⟨wh, rfl, h1, h2, h3⟩

/-- Witness for C7: a Saturday generates no slots, and the 09:00 slot of
Monday 2026-03-02 lies inside that day's working hours and off lunch. -/
theorem C7_witness :
    get_time_slots_for_day defaultConfig (daysFromCivil 2026 3 7) = [] ∧
    ∃ wh, get_work_hours_for_day defaultConfig (daysFromCivil 2026 3 2) = some wh ∧
      wh.1 ≤ 540 ∧ 540 < wh.2 ∧ is_lunch_time defaultConfig 540 = false :=
  ⟨(C7_generate_slots_sound defaultConfig (daysFromCivil 2026 3 7)).1
      (Or.inl (by decide)),
   (C7_generate_slots_sound defaultConfig (daysFromCivil 2026 3 2)).2
      540 (by decide)⟩

/-- Lunch detection reads only the lunch window of the configuration. -/
theorem is_lunch_time_congr (c1 c2 : BookingConfig)
    (hl : c1.lunch_break = c2.lunch_break) (t : Nat) :
    is_lunch_time c1 t = is_lunch_time c2 t := by
  unfold is_lunch_time
  rw [hl]

/-- The slot loop reads only the slot duration and the lunch window. -/
theorem slotsLoop_congr (c1 c2 : BookingConfig)
    (hd : c1.slot_duration_minutes = c2.slot_duration_minutes)
    (hl : c1.lunch_break = c2.lunch_break) :
    ∀ fuel current endT,
      slotsLoop c1 current endT fuel = slotsLoop c2 current endT fuel := by
  intro fuel
  induction fuel with
  | zero => intro current endT; rfl
  | succ f ih =>
    intro current endT
    unfold slotsLoop
    rw [is_lunch_time_congr c1 c2 hl, hd, ih]

/-- Slot generation reads only working hours, slot duration, blackout
dates and the lunch window. -/
theorem get_time_slots_congr (c1 c2 : BookingConfig)
    (hw : c1.work_hours = c2.work_hours)
    (hd : c1.slot_duration_minutes = c2.slot_duration_minutes)
    (hb : c1.blackout_dates = c2.blackout_dates)
    (hl : c1.lunch_break = c2.lunch_break) (day : Nat) :
    get_time_slots_for_day c1 day = get_time_slots_for_day c2 day := by
  unfold get_time_slots_for_day is_working_day get_work_hours_for_day is_blackout_date
  rw [hw, hb]
  rcases c2.work_hours (weekday day) with _ | wh
  · rfl
  · simp only [slotsLoop_congr c1 c2 hd hl]

/-- Booking validation reads only working hours, the advance bounds,
blackout dates and the lunch window. -/
theorem is_valid_booking_time_congr (c1 c2 : BookingConfig)
    (hw : c1.work_hours = c2.work_hours)
    (hmin : c1.min_advance_hours = c2.min_advance_hours)
    (hmax : c1.max_advance_days = c2.max_advance_days)
    (hb : c1.blackout_dates = c2.blackout_dates)
    (hl : c1.lunch_break = c2.lunch_break) (b now : Nat) :
    is_valid_booking_time c1 b now = is_valid_booking_time c2 b now := by
  simp only [is_valid_booking_time, is_working_day, get_work_hours_for_day,
    is_blackout_date, hw, hmin, hmax, hb, is_lunch_time_congr c1 c2 hl]

/-- C9: the per-day booking cap is inert - replacing
`max_bookings_per_day` by any value changes neither slot generation nor
booking validation; no operation reads the field. -/
theorem C9_booking_cap_inert (cfg : BookingConfig) (cap day b now : Nat) :
    get_time_slots_for_day { cfg with max_bookings_per_day := cap } day =
      get_time_slots_for_day cfg day ∧
    is_valid_booking_time { cfg with max_bookings_per_day := cap } b now =
      is_valid_booking_time cfg b now :=
  ⟨get_time_slots_congr { cfg with max_bookings_per_day := cap } cfg
      rfl rfl rfl rfl day,
   is_valid_booking_time_congr { cfg with max_bookings_per_day := cap } cfg
      rfl rfl rfl rfl rfl b now⟩

/-- A working day always has a working-hours entry: both functions read
the same `work_hours` table. -/
theorem work_hours_of_working_day (cfg : BookingConfig) (day : Nat)
    (h : is_working_day cfg day = true) :
    ∃ wh, get_work_hours_for_day cfg day = some wh := by
  unfold is_working_day at h
  unfold get_work_hours_for_day
  cases hw : cfg.work_hours (weekday day) with
  | none => rw [hw] at h; cases h
  | some wh => exact ⟨wh, rfl⟩

/-- C3: booking validation is total with a fixed check order - the
first failing check determines the single rejection reason, in the
order too-soon, too-far-out, non-working-day, blackout-date,
outside-working-hours, lunch-break; when every check passes the result
is valid with an empty message.  The final conjunct shows the
degenerate no-working-hours branch is unreachable, so the seven cases
listed here cover every input and each input reaches exactly one of
them. -/
theorem C3_validate_total_first_fail_wins (b now : Nat) :
    (b < now + 1440 →
      is_valid_booking_time defaultConfig b now =
        (false, "Bookings must be made at least 24 hours in advance")) ∧
    (¬b < now + 1440 → now + 43200 < b →
      is_valid_booking_time defaultConfig b now =
        (false, "Bookings cannot be made more than 30 days in advance")) ∧
    (¬b < now + 1440 → ¬now + 43200 < b →
      is_working_day defaultConfig (dayOf b) = false →
      is_valid_booking_time defaultConfig b now =
        (false, "Selected day is not available for bookings")) ∧
    (¬b < now + 1440 → ¬now + 43200 < b →
      is_working_day defaultConfig (dayOf b) = true →
      is_blackout_date defaultConfig (dayOf b) = true →
      is_valid_booking_time defaultConfig b now =
        (false, "Selected date is not available")) ∧
    (∀ wh : Nat × Nat, ¬b < now + 1440 → ¬now + 43200 < b →
      is_working_day defaultConfig (dayOf b) = true →
      is_blackout_date defaultConfig (dayOf b) = false →
      get_work_hours_for_day defaultConfig (dayOf b) = some wh →
      ¬(wh.1 ≤ minuteOfDay b ∧ minuteOfDay b < wh.2) →
      is_valid_booking_time defaultConfig b now =
        (false, "Selected time is outside working hours (" ++ minutesToHHMM wh.1
          ++ " - " ++ minutesToHHMM wh.2 ++ ")")) ∧
    (∀ wh : Nat × Nat, ¬b < now + 1440 → ¬now + 43200 < b →
      is_working_day defaultConfig (dayOf b) = true →
      is_blackout_date defaultConfig (dayOf b) = false →
      get_work_hours_for_day defaultConfig (dayOf b) = some wh →
      wh.1 ≤ minuteOfDay b → minuteOfDay b < wh.2 →
      is_lunch_time defaultConfig (minuteOfDay b) = true →
      is_valid_booking_time defaultConfig b now =
        (false, "Selected time falls during lunch break")) ∧
    (∀ wh : Nat × Nat, ¬b < now + 1440 → ¬now + 43200 < b →
      is_working_day defaultConfig (dayOf b) = true →
      is_blackout_date defaultConfig (dayOf b) = false →
      get_work_hours_for_day defaultConfig (dayOf b) = some wh →
      wh.1 ≤ minuteOfDay b → minuteOfDay b < wh.2 →
      is_lunch_time defaultConfig (minuteOfDay b) = false →
      is_valid_booking_time defaultConfig b now = (true, "")) ∧
    (is_working_day defaultConfig (dayOf b) = true →
      ∃ wh, get_work_hours_for_day defaultConfig (dayOf b) = some wh) := by
  refine ⟨?_, ?_, ?_, ?_, ?_, ?_, ?_,
    work_hours_of_working_day defaultConfig (dayOf b)⟩
  · intro h1
    have h1' : b < now + defaultConfig.min_advance_hours * 60 := h1
    simp [is_valid_booking_time, h1']
    rfl
  · intro h1 h2
    have h1' : ¬b < now + defaultConfig.min_advance_hours * 60 := h1
    have h2' : now + defaultConfig.max_advance_days * 1440 < b := h2
    simp [is_valid_booking_time, h1', h2']
    rfl
  · intro h1 h2 h3
    have h1' : ¬b < now + defaultConfig.min_advance_hours * 60 := h1
    have h2' : ¬now + defaultConfig.max_advance_days * 1440 < b := h2
    simp [is_valid_booking_time, h1', h2', h3]
  · intro h1 h2 h3 h4
    have h1' : ¬b < now + defaultConfig.min_advance_hours * 60 := h1
    have h2' : ¬now + defaultConfig.max_advance_days * 1440 < b := h2
    simp [is_valid_booking_time, h1', h2', h3, h4]
  · intro wh h1 h2 h3 h4 h5 h6
    have h1' : ¬b < now + defaultConfig.min_advance_hours * 60 := h1
    have h2' : ¬now + defaultConfig.max_advance_days * 1440 < b := h2
    simp [is_valid_booking_time, h1', h2', h3, h4, h5, h6]
  · intro wh h1 h2 h3 h4 h5 h6a h6b h7
    have h1' : ¬b < now + defaultConfig.min_advance_hours * 60 := h1
    have h2' : ¬now + defaultConfig.max_advance_days * 1440 < b := h2
    simp [is_valid_booking_time, h1', h2', h3, h4, h5, h6a, h6b, h7]
  · intro wh h1 h2 h3 h4 h5 h6a h6b h7
    have h1' : ¬b < now + defaultConfig.min_advance_hours * 60 := h1
    have h2' : ¬now + defaultConfig.max_advance_days * 1440 < b := h2
    simp [is_valid_booking_time, h1', h2', h3, h4, h5, h6a, h6b, h7]

/-- Witness for C3 at a request that is both too soon and outside
working hours: the too-soon reason wins.  The instant is 2026-03-02 at
05:00 with the clock at midnight of the same day. -/
theorem C3_witness :
    is_valid_booking_time defaultConfig (daysFromCivil 2026 3 2 * 1440 + 300)
      (daysFromCivil 2026 3 2 * 1440) =
      (false, "Bookings must be made at least 24 hours in advance") :=
  (C3_validate_total_first_fail_wins (daysFromCivil 2026 3 2 * 1440 + 300)
    (daysFromCivil 2026 3 2 * 1440)).1 (by omega)

/-- A credential whose access token expired at instant 100 and that
holds a refresh token. -/
def expiredCreds : Creds where
  token := "stale"
  refresh_token := some "rtok"
  expiry := some 100

/-- The service state holding the expired credential with a built
service handle - exactly what `authorize_from_code` leaves behind once
instant 100 has passed. -/
def expiredState : OAuthState where
  creds := some expiredCreds
  service := true

/-- A refresh behavior on which the provider rejects the refresh. -/
def failRefresh : Creds → Except String Creds := fun _ => .error "invalid_grant"

/-- The fresh credential a successful refresh returns. -/
def refreshedCreds : Creds where
  token := "fresh"
  refresh_token := some "rtok"
  expiry := some 5000

/-- A refresh behavior on which the refresh succeeds. -/
def okRefresh : Creds → Except String Creds := fun _ => .ok refreshedCreds

/-- The state of a service that never loaded or obtained a credential. -/
def emptyState : OAuthState where
  creds := none
  service := false

/-- Counterexample to C1: the state reached by a successful grant whose
token has since expired (with a refresh token held, but the provider
rejecting refreshes).  Per the spec `isAuthorized()` must attempt the
refresh, fail, and report false; the code reports true, consulting
neither expiry nor the provider. -/
theorem C1_counterexample :
    GoogleOAuthService.authorize_from_code (.ok expiredCreds) =
      .ok (expiredState, some expiredCreds) ∧
    ¬(GoogleOAuthService.is_authorized expiredState =
        spec_is_authorized expiredState 200 failRefresh) := by
  constructor
  · rfl
  · decide

/-- C1 (amended): `is_authorized` returns true iff a credential object
and a service handle are both present, with no expiry consultation and
no refresh attempt; hence it is true immediately after a successful
`authorize_from_code` and stays true at every later instant, including
after the access token's expiry has passed. -/
theorem C1_is_authorized_presence_only (ex : Except String Creds)
    (st' : OAuthState) (pers : Option Creds)
    (h : GoogleOAuthService.authorize_from_code ex = .ok (st', pers)) :
    GoogleOAuthService.is_authorized st' = true ∧
    st'.creds = pers ∧
    (∀ s : OAuthState,
      GoogleOAuthService.is_authorized s = (s.creds.isSome && s.service)) := by
  cases ex with
  | error e => cases h
  | ok c =>
    injection h with h2
    cases h2
    exact ⟨rfl, rfl, fun s => rfl⟩

/-- Witness for C1 at a concrete successful grant. -/
theorem C1_witness :
    GoogleOAuthService.is_authorized
      { creds := some sampleCreds, service := true } = true :=
  (C1_is_authorized_presence_only (.ok sampleCreds)
    { creds := some sampleCreds, service := true } (some sampleCreds) rfl).1

/-- Counterexample to C2: with a persisted token that is expired and
carries a refresh token, a failing refresh call does not leave
`_load_credentials` completing normally in a degraded state - the
exception escapes to the caller (the constructor, run at module
import). -/
theorem C2_counterexample :
    GoogleOAuthService.load_credentials (some expiredCreds) 200 failRefresh =
      .error "invalid_grant" := by
  rfl

/-- C2 (amended): on startup with a persisted expired token carrying a
refresh token, a successful refresh is persisted and leaves the state
authorized; a failing refresh propagates its error out of
`_load_credentials` instead of completing in state Expired. -/
theorem C2_load_refresh_or_propagate (c : Creds) (now : Nat)
    (refresh : Creds → Except String Creds)
    (hexp : creds_expired c now = true)
    (hrt : c.refresh_token.isSome = true) :
    (∀ c', refresh c = .ok c' →
      GoogleOAuthService.load_credentials (some c) now refresh =
        .ok ({ creds := some c', service := true }, some c')) ∧
    (∀ e, refresh c = .error e →
      GoogleOAuthService.load_credentials (some c) now refresh = .error e) := by
  constructor <;> intro x h <;>
    simp [GoogleOAuthService.load_credentials, hexp, hrt, h]

/-- Witness for C2 on the successful-refresh branch. -/
theorem C2_witness :
    GoogleOAuthService.load_credentials (some expiredCreds) 200 okRefresh =
      .ok ({ creds := some refreshedCreds, service := true },
           some refreshedCreds) :=
  (C2_load_refresh_or_propagate expiredCreds 200 okRefresh (by decide)
    (by decide)).1 refreshedCreds rfl

/-- The sample form with a different industry field. -/
def sampleFormB : FormData := { sampleForm with industry := "Finance" }

/-- Counterexample to C8: the degraded-path event does not inline all
intake details - two forms that differ in the industry field build the
very same event, so the industry (likewise company size, full name,
website, lead source) appears nowhere in it. -/
theorem C8_counterexample :
    GoogleCalendarService.build_event sampleForm =
      GoogleCalendarService.build_event sampleFormB ∧
    sampleForm.industry ≠ sampleFormB.industry := by
  constructor
  · rfl
  · decide

/-- C8 (amended): when the OAuth path is unavailable and a service
credential is configured, `book_meeting` takes the degraded path: no
conflict check is made (the only provider call is the insert), the
built event has no attendees, no conference request and no private
notes, its visible description inlines the email, phone, role and goals
fields (only - the remaining intake fields are omitted), and the
returned confirmation carries no video-conference link. -/
theorem C8_degraded_path (st : OAuthState) (p : Provider) (now : Nat)
    (fd : FormData) (ce : CreatedEvent)
    (hna : GoogleOAuthService.is_authorized st = false)
    (hvalid : (is_valid_booking_time defaultConfig fd.startInstant now).1 = true)
    (hins : p.insertEvent (GoogleCalendarService.build_event fd) = .ok ce) :
    (GoogleCalendarService.create_meeting true p fd).2 = [PCall.insertEvent] ∧
    (GoogleCalendarService.build_event fd).attendees = [] ∧
    (GoogleCalendarService.build_event fd).hasConferenceRequest = false ∧
    (GoogleCalendarService.build_event fd).extendedProperties_private = none ∧
    (GoogleCalendarService.build_event fd).description =
      fd.email ++ "\n" ++ fd.phone ++ "\n" ++ fd.role ++ "\n\n" ++ fd.goals ∧
    book_meeting st true p now fd =
      .ok { message := "Event created! Manually add Google Meet and invite " ++ fd.email,
            event_id := some ce.id, event_link := ce.htmlLink,
            meet_link := none, attendee_email := some fd.email } := by
  refine ⟨?_, rfl, rfl, rfl, rfl, ?_⟩
  · simp [GoogleCalendarService.create_meeting, hins]
  · simp [book_meeting, hvalid, hna, GoogleCalendarService.create_meeting,
      hins, finish_booking]

/-- Witness for C8: an unauthorized service with a configured service
account books the sample Monday-morning meeting with no Meet link. -/
theorem C8_witness :
    book_meeting emptyState true okProvider
      ((daysFromCivil 2026 3 2 - 1) * 1440) sampleForm =
      .ok { message := "Event created! Manually add Google Meet and invite ada@example.com",
            event_id := some "evt1", event_link := some "link1",
            meet_link := none, attendee_email := some "ada@example.com" } :=
  (C8_degraded_path emptyState okProvider ((daysFromCivil 2026 3 2 - 1) * 1440)
    sampleForm sampleCreated rfl (by decide) rfl).2.2.2.2.2

/-- C10: whenever the OAuth path is unavailable the availability
endpoint fails with the 503 service-unavailable error - even when a
service credential is configured - while the booking endpoint still
creates meetings through the degraded path. -/
theorem C10_availability_503_when_unauthorized (st : OAuthState)
    (calConfigured : Bool) (p : Provider) (now : Nat) (start_day : Option Nat)
    (days : Nat) (fd : FormData) (ce : CreatedEvent)
    (hna : GoogleOAuthService.is_authorized st = false) :
    get_available_slots st calConfigured p now start_day days =
      .error (503, "Calendar not configured") ∧
    ((is_valid_booking_time defaultConfig fd.startInstant now).1 = true →
      p.insertEvent (GoogleCalendarService.build_event fd) = .ok ce →
      book_meeting st true p now fd =
        .ok { message := "Event created! Manually add Google Meet and invite " ++ fd.email,
              event_id := some ce.id, event_link := ce.htmlLink,
              meet_link := none, attendee_email := some fd.email }) := by
  constructor
  · simp [get_available_slots, hna]
  · intro hvalid hins
    simp [book_meeting, hvalid, hna, GoogleCalendarService.create_meeting,
      hins, finish_booking]

/-- Witness for C10 at a concrete unauthorized, service-configured
deployment: availability is 503, booking succeeds. -/
theorem C10_witness :
    get_available_slots emptyState true okProvider
      ((daysFromCivil 2026 3 2 - 1) * 1440) none 14 =
      .error (503, "Calendar not configured") ∧
    book_meeting emptyState true okProvider
      ((daysFromCivil 2026 3 2 - 1) * 1440) sampleForm =
      .ok { message := "Event created! Manually add Google Meet and invite ada@example.com",
            event_id := some "evt1", event_link := some "link1",
            meet_link := none, attendee_email := some "ada@example.com" } :=
  ⟨(C10_availability_503_when_unauthorized emptyState true okProvider
      ((daysFromCivil 2026 3 2 - 1) * 1440) none 14 sampleForm sampleCreated rfl).1,
   (C10_availability_503_when_unauthorized emptyState true okProvider
      ((daysFromCivil 2026 3 2 - 1) * 1440) none 14 sampleForm sampleCreated rfl).2
      (by decide) rfl⟩

end NxBackend
